import Mathlib

/-!
Verification of src/praxis_advisor.py, a Flask service with a health
endpoint (GET /) and a charter-generation endpoint
(POST /webhook/praxis-charter).  The file contains two versions of the
handler: the primary one registered on the Flask route (lines 28-427),
whose body ends after building the prompt strings, and a second example
version (lines 476-516) that performs the upstream API call inside a
try/except.  Both are embedded below.  JSON bodies are modelled as
association lists of string keys and `JVal` values; Python dictionary
access `data.get(k, d)` is `pyGet`, and Python string truthiness is the
test against the empty string.
-/

namespace PraxisAdvisor

/-- A JSON value as produced by flask.jsonify: strings, booleans,
numbers and nested objects (the shapes used by this service). -/
inductive JVal where
  | str (s : String)
  | bool (b : Bool)
  | num (n : Nat)
  | obj (kvs : List (String × JVal))

/-- Key lookup in a JSON object body. -/
def jlookup (body : List (String × JVal)) (k : String) : Option JVal :=
  (body.find? (fun p => p.1 == k)).map (fun p => p.2)

/-- Key lookup inside a nested JSON object value. -/
def jGetObj (v : Option JVal) (k : String) : Option JVal :=
  match v with
  | some (JVal.obj kvs) => jlookup kvs k
  | _ => none

/-- The parsed request body: present keys with their string values.
A key that is absent from the list models a field missing from the
request JSON. -/
def getOpt (data : List (String × String)) (k : String) : Option String :=
  (data.find? (fun p => p.1 == k)).map (fun p => p.2)

/-- Python dictionary access data.get(k, d): the value when the key is
present (even when it is the empty string), the default d otherwise. -/
def pyGet (data : List (String × String)) (k d : String) : String :=
  (getOpt data k).getD d

/-- An incoming POST request to /webhook/praxis-charter: the result of
the flask request.is_json content-type test, and the parsed JSON body. -/
structure JsonReq where
  isJson : Bool
  json : List (String × String)

/-- One piece of the Python f-string template at lines 83-427: literal
text, a plain interpolation such as projectName inside braces, or a
conditional interpolation of the form name-if-name-else-default. -/
inductive Piece where
  | lit (s : String)
  | var (name : String)
  | varElse (name : String) (dflt : String)

/-- Name lookup in the local environment of the handler, as Python does
when evaluating an f-string interpolation. -/
def lookupEnv (env : List (String × String)) (n : String) : Option String :=
  (env.find? (fun p => p.1 == n)).map (fun p => p.2)

/-- Evaluation of an f-string, piece by piece in textual order.  A plain
or conditional interpolation of a name that is not bound in the
environment raises NameError, modelled as the error case carrying the
offending name; this is exactly Python behaviour for f-strings. -/
def evalPieces (env : List (String × String)) : List Piece → Except String String
  | [] => Except.ok ""
  | Piece.lit s :: rest =>
      (evalPieces env rest).map (fun t => s ++ t)
  | Piece.var n :: rest =>
      match lookupEnv env n with
      | none => Except.error n
      | some v => (evalPieces env rest).map (fun t => v ++ t)
  | Piece.varElse n d :: rest =>
      match lookupEnv env n with
      | none => Except.error n
      | some v => (evalPieces env rest).map (fun t => (if v == "" then d else v) ++ t)

/-- The system prompt built at lines 78-80 of the source. -/
def system_prompt : String :=
  "You are Praxis Advisor, an expert strategic business consultant with over 20 years of experience in Agile/Scrum project management, portfolio coordination, and cross-functional team leadership. You specialize in helping organizations deliver transformative outcomes through proven methodologies.\n\nYour approach is practical, evidence-based, and tailored to each client\x27s context. Your deliverables are structured, professional, and include specific next steps."

/-- The user-prompt f-string template of lines 83-427 of the source,
split into literal pieces and interpolations, in textual order. -/
def user_prompt_pieces : List Piece := [
  Piece.lit "Generate a comprehensive project charter for the following project:\n\n**CRITICAL FORMATTING REQUIREMENTS:**\n- Use HTML tables for all spreadsheet-style data\n- Use proper HTML markup (tables, divs with classes)\n- For Project Phases: DO NOT use |- before month/day bullets\n- Include visual gauges for KPIs\n- Use color-coded status indicators\n\n**Project Information:**\nProject Name: ",
  Piece.var "projectName",
  Piece.lit "\nProject Goal: ",
  Piece.var "projectGoal",
  Piece.lit "\nTimeline: ",
  Piece.varElse "timeline" "Not specified",
  Piece.lit "\nBudget: ",
  Piece.varElse "budget" "Not specified",
  Piece.lit "\nKey Stakeholders: ",
  Piece.varElse "stakeholders" "Not specified",
  Piece.lit "\nConstraints: ",
  Piece.varElse "constraints" "Not specified",
  Piece.lit "\nIndustry: ",
  Piece.varElse "industry" "Not specified",
  Piece.lit "\nTeam Size: ",
  Piece.varElse "teamSize" "Not specified",
  Piece.lit "\n\n**Generate the charter with these sections:**\n\n## 1. EXECUTIVE SUMMARY\nProvide a comprehensive 2-3 paragraph executive summary.\n\n## 2. PROJECT OBJECTIVES\nList specific, measurable objectives with clear success criteria.\n\n## 3. SCOPE\nDefine what is IN SCOPE and OUT OF SCOPE clearly.\n\n## 4. KEY DELIVERABLES SUMMARY\n**Format as HTML TABLE:**\n<table>\n<thead>\n<tr>\n<th>Deliverable</th>\n<th>Description</th>\n<th>Due Date</th>\n<th>Owner</th>\n<th>Status</th>\n</tr>\n</thead>\n<tbody>\n<tr>\n<td>[Deliverable name]</td>\n<td>[Brief description]</td>\n<td>[Date]</td>\n<td>[Team/Person]</td>\n<td><span class=\"status-green\">On Track</span></td>\n</tr>\n<!-- Add 5-8 deliverables -->\n</tbody>\n</table>\n\n## 5. STAKEHOLDER MATRIX\n**Format as HTML TABLE:**\n<table>\n<thead>\n<tr>\n<th>Stakeholder</th>\n<th>Role</th>\n<th>Responsibility</th>\n<th>Influence</th>\n<th>Engagement Level</th>\n</tr>\n</thead>\n<tbody>\n<tr>\n<td>[Name/Title]</td>\n<td>[Position]</td>\n<td>[Key responsibilities]</td>\n<td>[High/Medium/Low]</td>\n<td>[Daily/Weekly/Monthly]</td>\n</tr>\n<!-- Add all stakeholders -->\n</tbody>\n</table>\n\n## 6. PROJECT PHASES AND MILESTONES\n**For each phase, format like this (NO |- symbols):**\n\n**Phase 1: Planning & Design (Months 1-2)**\nMonth 1:\n  - Requirement gathering\n  - Stakeholder interviews\n  - Initial design concepts\n\nMonth 2:\n  - Design finalization\n  - Resource allocation\n  - Kickoff meeting\n\n**Phase 2: Development (Months 3-4)**\nMonth 3:\n  - Core development begins\n  - First prototype\n  \nMonth 4:\n  - Feature completion\n  - Internal testing\n\n## 7. CORE PROJECT TEAM\n**Format as HTML TABLE:**\n<table>\n<thead>\n<tr>\n<th>Name/Role</th>\n<th>Responsibilities</th>\n<th>Allocation</th>\n<th>Skills</th>\n<th>Contact</th>\n</tr>\n</thead>\n<tbody>\n<tr>\n<td>Project Manager</td>\n<td>Overall coordination, timeline management, stakeholder communication</td>\n<td>100%</td>\n<td>PMP, Agile, Leadership</td>\n<td>pm@company.com</td>\n</tr>\n<!-- Add all team members based on team size -->\n</tbody>\n</table>\n\n## 8. BUDGET ALLOCATION BY CATEGORY\n**Format as HTML TABLE:**\n<table>\n<thead>\n<tr>\n<th>Category</th>\n<th>Amount</th>\n<th>Percentage</th>\n<th>Justification</th>\n</tr>\n</thead>\n<tbody>\n<tr>\n<td>Personnel</td>\n<td>$XXX,XXX</td>\n<td>XX%</td>\n<td>[Explanation]</td>\n</tr>\n<tr>\n<td>Technology/Tools</td>\n<td>$XX,XXX</td>\n<td>XX%</td>\n<td>[Explanation]</td>\n</tr>\n<tr>\n<td>Infrastructure</td>\n<td>$XX,XXX</td>\n<td>XX%</td>\n<td>[Explanation]</td>\n</tr>\n<tr>\n<td>Training</td>\n<td>$XX,XXX</td>\n<td>XX%</td>\n<td>[Explanation]</td>\n</tr>\n<tr>\n<td>Contingency (10-15%)</td>\n<td>$XX,XXX</td>\n<td>XX%</td>\n<td>[Explanation]</td>\n</tr>\n<tr>\n<td><strong>TOTAL</strong></td>\n<td><strong>[Total Budget]</strong></td>\n<td><strong>100%</strong></td>\n<td></td>\n</tr>\n</tbody>\n</table>\n\n## 9. BUDGET PHASING BY MONTH\n**Format as HTML TABLE:**\n<table>\n<thead>\n<tr>\n<th>Month</th>\n<th>Planned Spend</th>\n<th>Cumulative</th>\n<th>% of Total</th>\n<th>Key Activities</th>\n</tr>\n</thead>\n<tbody>\n<tr>\n<td>Month 1</td>\n<td>$XX,XXX</td>\n<td>$XX,XXX</td>\n<td>X%</td>\n<td>[Key spending areas]</td>\n</tr>\n<!-- Add row for each month of timeline -->\n</tbody>\n</table>\n\n## 10. RISK ASSESSMENT MATRIX\n**Format as HTML TABLE with color-coded risk scores:**\n<table>\n<thead>\n<tr>\n<th>Risk Description</th>\n<th>Probability</th>\n<th>Impact</th>\n<th>Risk Score</th>\n<th>Mitigation Strategy</th>\n<th>Contingency Plan</th>\n</tr>\n</thead>\n<tbody>\n<tr>\n<td>[Risk description]</td>\n<td>High/Medium/Low</td>\n<td>High/Medium/Low</td>\n<td><span class=\"risk-high\">9</span></td>\n<td>[Proactive mitigation steps]</td>\n<td>[If risk occurs, do this]</td>\n</tr>\n<!-- Add 5-10 key risks -->\n<!-- Use class=\"risk-high\" for scores 7-9, \"risk-medium\" for 4-6, \"risk-low\" for 1-3 -->\n</tbody>\n</table>\n\n**Risk Scoring:** Probability × Impact (both scored 1-3: Low=1, Medium=2, High=3)\n\n## 11. OKRs AND KPIs ALIGNED WITH STRATEGIC OBJECTIVES\n\n### Strategic Alignment\nExplain how this project aligns with the organization\x27s strategic plan and objectives.\n\n### Objectives and Key Results (OKRs)\n\n**Objective 1: [Strategic Objective]**\n- **Key Result 1:** [Measurable outcome]\n- **Key Result 2:** [Measurable outcome]\n- **Key Result 3:** [Measurable outcome]\n\n**Objective 2: [Strategic Objective]**\n- **Key Result 1:** [Measurable outcome]\n- **Key Result 2:** [Measurable outcome]\n\n### Key Performance Indicators (KPIs) Dashboard\n\n**Format with HTML gauges (use appropriate percentages and colors):**\n\n<div class=\"kpi-container\">\n  <div class=\"kpi-item\">\n    <div class=\"kpi-gauge\" style=\"--gauge-percent: 85; --gauge-color: #00ff88;\">\n      <span class=\"kpi-gauge-text\">85%</span>\n    </div>\n    <div class=\"kpi-label\">On-Time Delivery</div>\n    <div class=\"kpi-target\">Target: 90%</div>\n  </div>\n  \n  <div class=\"kpi-item\">\n    <div class=\"kpi-gauge\" style=\"--gauge-percent: 65; --gauge-color: #ffeb3b;\">\n      <span class=\"kpi-gauge-text\">65%</span>\n    </div>\n    <div class=\"kpi-label\">Budget Utilization</div>\n    <div class=\"kpi-target\">Target: 100%</div>\n  </div>\n  \n  <div class=\"kpi-item\">\n    <div class=\"kpi-gauge\" style=\"--gauge-percent: 92; --gauge-color: #00ff88;\">\n      <span class=\"kpi-gauge-text\">92%</span>\n    </div>\n    <div class=\"kpi-label\">Quality Score</div>\n    <div class=\"kpi-target\">Target: 95%</div>\n  </div>\n  \n  <div class=\"kpi-item\">\n    <div class=\"kpi-gauge\" style=\"--gauge-percent: 45; --gauge-color: #ff5722;\">\n      <span class=\"kpi-gauge-text\">45%</span>\n    </div>\n    <div class=\"kpi-label\">Stakeholder Satisfaction</div>\n    <div class=\"kpi-target\">Target: 85%</div>\n  </div>\n</div>\n\n**Color Coding:**\n- Green (#00ff88): 80-100% (On Track)\n- Yellow (#ffeb3b): 60-79% (Needs Attention)\n- Red (#ff5722): 0-59% (At Risk)\n\n### KPI Tracking Table\n**Format as HTML TABLE:**\n<table>\n<thead>\n<tr>\n<th>KPI</th>\n<th>Current</th>\n<th>Target</th>\n<th>Status</th>\n<th>Trend</th>\n<th>Action Required</th>\n</tr>\n</thead>\n<tbody>\n<tr>\n<td>On-Time Delivery</td>\n<td>85%</td>\n<td>90%</td>\n<td><span class=\"status-yellow\">Needs Attention</span></td>\n<td>↗</td>\n<td>Accelerate Phase 2 tasks</td>\n</tr>\n<tr>\n<td>Budget Utilization</td>\n<td>65%</td>\n<td>100%</td>\n<td><span class=\"status-green\">On Track</span></td>\n<td>→</td>\n<td>Continue monitoring</td>\n</tr>\n<!-- Add 5-8 KPIs total -->\n</tbody>\n</table>\n\n## 12. SUCCESS CRITERIA\nDefine clear, measurable success criteria.\n\n## 13. ASSUMPTIONS AND DEPENDENCIES\nList key assumptions and external dependencies.\n\n## 14. COMMUNICATION PLAN\nOutline how project updates will be shared.\n\n## 15. APPROVAL AND SIGN-OFF\nStandard approval section with stakeholder names.\n\n---\n\n**REMEMBER:** \n- Use proper HTML table syntax\n- Use color-coded classes (status-green, status-yellow, status-red, risk-high, risk-medium, risk-low)\n- Include KPI gauges with appropriate colors\n- NO |- symbols in phase bullets\n- Be specific and comprehensive\n- All budget numbers should add up correctly\n- All percentages should total 100%"
]

/-- The local string bindings in scope when the user-prompt f-string of
lines 83-427 is evaluated, from the extraction at lines 67-75 of the
source: project_name from data.get of projectName and so on, the six
optional fields taking their documented defaults only when the key is
absent.  data.get with no default returns None for an absent key; on the
only path that reaches this point validation has already guaranteed that
projectName and projectGoal are present and non-empty, so the empty
string stands in for the unreachable None.  system_prompt is bound just
before the template (line 78). -/
def extractFields (data : List (String × String)) : List (String × String) :=
  [("project_name", pyGet data "projectName" ""),
   ("project_goal", pyGet data "projectGoal" ""),
   ("timeline", pyGet data "timeline" "Not specified"),
   ("budget", pyGet data "budget" "Not specified"),
   ("stakeholders", pyGet data "stakeholders" "To be determined"),
   ("constraints", pyGet data "constraints" "None specified"),
   ("industry", pyGet data "industry" "General"),
   ("team_size", pyGet data "teamSize" "To be determined"),
   ("system_prompt", system_prompt)]

/-- Line 57 of the source. -/
def required_fields : List String := ["projectName", "projectGoal"]

/-- Line 58: the comprehension keeps, in order, each required field for
which data.get(field) is falsy, that is absent (None) or the empty
string. -/
def missing_fields (data : List (String × String)) : List String :=
  required_fields.filter (fun f => pyGet data f "" == "")

/-- The uniform 400 error body built at lines 48-52 and 61-65. -/
def badRequestBody (msg : String) : List (String × JVal) :=
  [("error", JVal.bool true),
   ("message", JVal.str msg),
   ("statusCode", JVal.num 400)]

/-- Observable side effects of the primary handler: constructing the
prompt strings, and calling the upstream client.  The primary handler
never performs an upstream call (no such call occurs in lines 28-427),
so upstreamCall never appears in its trace. -/
inductive Effect where
  | promptBuilt
  | upstreamCall

/-- Outcome of the primary handler: an HTTP response, an uncaught
NameError raised while evaluating the prompt f-string, or falling off
the end of the function body (the source text after line 427 is outside
the function and is not even valid Python, so the function would return
None). -/
inductive V1Outcome where
  | response (status : Nat) (body : List (String × JVal))
  | nameError (name : String)
  | noReturn

/-- The HTTP status of an outcome, when one is produced. -/
def statusOf : V1Outcome → Option Nat
  | V1Outcome.response s _ => some s
  | _ => none

/-- The primary handler generate_charter registered on
POST /webhook/praxis-charter (lines 28-427 of the source): reject a
non-JSON content type with 400, reject missing required fields with 400,
otherwise build the prompts, where evaluating the f-string template
either raises NameError or completes with no return statement left in
the function body.  The second component is the trace of side effects. -/
def generate_charter (req : JsonReq) : V1Outcome × List Effect :=
  if !req.isJson then
    (V1Outcome.response 400 (badRequestBody "Content-Type must be application/json"), [])
  else if !(missing_fields req.json).isEmpty then
    (V1Outcome.response 400
      (badRequestBody ("Missing required fields: " ++
        String.intercalate ", " (missing_fields req.json))), [])
  else
    match evalPieces (extractFields req.json) user_prompt_pieces with
    | Except.error n => (V1Outcome.nameError n, [Effect.promptBuilt])
    | Except.ok _ => (V1Outcome.noReturn, [Effect.promptBuilt])

/-- One content block of the upstream API message (message.content[i],
with its text attribute). -/
structure ContentBlock where
  text : String

/-- The usage counters reported by the upstream API. -/
structure Usage where
  input_tokens : Nat
  output_tokens : Nat

/-- A successful upstream API message: content blocks plus usage. -/
structure ApiMessage where
  content : List ContentBlock
  usage : Usage

/-- Behaviour of the single call anthropic.messages.create(...): either
it returns a message, or it raises an exception whose str(e) is the
given text. -/
inductive ApiBehavior where
  | returns (m : ApiMessage)
  | raises (e : String)

/-- The second version of generate_charter (lines 476-516 of the
source).  Inside try: extract fields with empty-string defaults, build a
constant prompt, call the API; charter = message.content[0].text (an
empty content list raises IndexError, caught by the same except); on
success return 200 with success, projectName, charter and a metadata
object holding only generatedAt and the constant estimatedCost string
0.025; any exception e yields 500 with success false and message str(e).
The parameter now stands for datetime.now().isoformat(). -/
def generate_charter_v2 (data : List (String × String)) (now : String)
    (api : ApiBehavior) : Nat × List (String × JVal) :=
  match api with
  | ApiBehavior.raises e =>
      (500, [("success", JVal.bool false), ("message", JVal.str e)])
  | ApiBehavior.returns m =>
      match m.content with
      | [] =>
          (500, [("success", JVal.bool false),
                 ("message", JVal.str "list index out of range")])
      | b :: _ =>
          (200, [("success", JVal.bool true),
                 ("projectName", JVal.str (pyGet data "projectName" "")),
                 ("charter", JVal.str b.text),
                 ("metadata", JVal.obj
                   [("generatedAt", JVal.str now),
                    ("estimatedCost", JVal.str "0.025")])])

/-- The body returned by the health handler home (lines 18-26);
flask.jsonify responds with status 200. -/
def home_body : List (String × JVal) :=
  [("status", JVal.str "online"),
   ("service", JVal.str "Praxis Advisor - Project Charter Generator"),
   ("version", JVal.str "1.0"),
   ("endpoint", JVal.str "/webhook/praxis-charter")]

/-- The full health response. -/
def home_response : Nat × List (String × JVal) := (200, home_body)

/-- The routes registered on the Flask app: the route decorator at line
18 with the default method GET, and the one at line 28 restricted to
POST. -/
def url_map : List (String × List String) :=
  [("/", ["GET"]), ("/webhook/praxis-charter", ["POST"])]

/-- Result of route dispatch: a matched handler, no matching path, or a
matching path whose method list excludes the request method. -/
inductive RouteMatch where
  | handler (path : String)
  | notFound
  | methodNotAllowed

/-- Flask dispatch over the registered routes. -/
def route (method path : String) : RouteMatch :=
  match url_map.find? (fun r => r.1 == path) with
  | none => RouteMatch.notFound
  | some r => if r.2.contains method then RouteMatch.handler r.1
              else RouteMatch.methodNotAllowed

/-- Modelled from the spec: the source registers no 404 error handler
(there is no errorhandler registration anywhere in
src/praxis_advisor.py), so the JSON body documented for unmatched routes
is taken from the spec, section 6. -/
def not_found_response : Nat × List (String × JVal) :=
  (404, [("error", JVal.bool true),
         ("message", JVal.str "Endpoint not found. Use POST /webhook/praxis-charter"),
         ("statusCode", JVal.num 404)])

/-- Modelled from the spec: the source registers no 405 error handler,
so the JSON body documented for a wrong method is taken from the spec,
section 6. -/
def method_not_allowed_response : Nat × List (String × JVal) :=
  (405, [("error", JVal.bool true),
         ("message", JVal.str "Method not allowed. Use POST request."),
         ("statusCode", JVal.num 405)])

/-- The error response produced by dispatch, none when a handler is
reached. -/
def error_response (method path : String) : Option (Nat × List (String × JVal)) :=
  match route method path with
  | RouteMatch.notFound => some not_found_response
  | RouteMatch.methodNotAllowed => some method_not_allowed_response
  | RouteMatch.handler _ => none

/-- A sample parsed request body with the two required fields. -/
def sample_request : List (String × String) :=
  [("projectName", "Demo"), ("projectGoal", "Ship")]

/-- A sample successful upstream message with one content block and one
million input and output tokens. -/
def sample_success : ApiBehavior :=
  ApiBehavior.returns ⟨[⟨"<h1>Charter</h1>"⟩], ⟨1000000, 1000000⟩⟩

/-- A sample generation timestamp. -/
def sample_now : String := "2026-01-01T00:00:00"

/-- Helper: evaluating the user-prompt template in the environment of
the primary handler raises NameError on the very first interpolation,
projectName, whatever the request data, because the extraction at lines
67-75 binds project_name and not projectName. -/
theorem evalPieces_user_prompt (data : List (String × String)) :
    evalPieces (extractFields data) user_prompt_pieces =
      Except.error "projectName" := rfl

/-- Helper: data.get(k, d) returns the default when the key is absent. -/
theorem pyGet_of_absent (data : List (String × String)) (k d : String)
    (h : getOpt data k = none) : pyGet data k d = d := by
  unfold pyGet
  rw [h]
  rfl

/-- C1: the claim states that the estimated cost equals
input_tokens/1e6*3 + output_tokens/1e6*15, so 18.0000 for one million
input and one million output tokens.  Counterexample: on that exact
input the code returns the constant string 0.025, which is not
18.0000 -- the handler at lines 476-516 never reads the usage counters
when pricing. -/
theorem c1_cost_counterexample :
    jGetObj (jlookup (generate_charter_v2 sample_request sample_now sample_success).2
        "metadata") "estimatedCost" = some (JVal.str "0.025") ∧
    ("0.025" : String) ≠ "18.0000" := by
  exact ⟨rfl, by decide⟩

/-- C1 amended: for every successful upstream API result (a message
whose content list is non-empty), the estimated cost returned in the
response metadata is the constant string 0.025, independent of the
token counts. -/
theorem c1_cost_constant (data : List (String × String)) (now : String)
    (b : ContentBlock) (rest : List ContentBlock) (u : Usage) :
    jGetObj (jlookup (generate_charter_v2 data now
        (ApiBehavior.returns ⟨b :: rest, u⟩)).2 "metadata") "estimatedCost" =
      some (JVal.str "0.025") := rfl

/-- C2: a JSON request in which a required field is absent or empty gets
HTTP 400, and the message lists exactly the missing field names, joined
by a comma and space, in the fixed order projectName then projectGoal:
the missing list is the order-preserving filter of that two-element
list. -/
theorem c2_missing_fields (req : JsonReq) (h1 : req.isJson = true)
    (h2 : missing_fields req.json ≠ []) :
    missing_fields req.json =
      List.filter (fun f => pyGet req.json f "" == "")
        ["projectName", "projectGoal"] ∧
    (generate_charter req).1 = V1Outcome.response 400
      [("error", JVal.bool true),
       ("message", JVal.str ("Missing required fields: " ++
          String.intercalate ", " (missing_fields req.json))),
       ("statusCode", JVal.num 400)] := by
  refine ⟨rfl, ?_⟩
  have hM : (missing_fields req.json).isEmpty = false := by
    cases hm : missing_fields req.json
    · exact absurd hm h2
    · rfl
  simp [generate_charter, h1, hM, badRequestBody]

/-- C2 witness: the empty JSON body is missing both required fields and
is answered with 400 and the message naming both, in order. -/
theorem c2_missing_fields_witness :
    (generate_charter ⟨true, []⟩).1 = V1Outcome.response 400
      [("error", JVal.bool true),
       ("message", JVal.str "Missing required fields: projectName, projectGoal"),
       ("statusCode", JVal.num 400)] := by
  have h := c2_missing_fields ⟨true, []⟩ rfl (by decide)
  exact h.2

/-- C3: the claim states that an optional field that is absent or empty
resolves to its documented default.  Counterexample: with stakeholders
present as the empty string, the extraction at line 72 resolves it to
the empty string, not to the default To be determined, because
data.get(k, d) only substitutes d for an absent key; and the template
piece for stakeholders would render the empty value as Not specified,
which is also not the documented default. -/
theorem c3_empty_counterexample :
    lookupEnv (extractFields
        [("projectName", "Website"), ("projectGoal", "Launch"), ("stakeholders", "")])
        "stakeholders" = some "" ∧
    evalPieces (extractFields
        [("projectName", "Website"), ("projectGoal", "Launch"), ("stakeholders", "")])
        [Piece.varElse "stakeholders" "Not specified"] = Except.ok "Not specified" ∧
    ("" : String) ≠ "To be determined" ∧
    ("Not specified" : String) ≠ "To be determined" := by
  exact ⟨rfl, rfl, by decide, by decide⟩

/-- C3 amended: each optional field that is absent from the request
resolves to its documented default string in the handler environment
(timeline and budget to Not specified, stakeholders to To be
determined, constraints to None specified, industry to General,
teamSize to To be determined, bound as team_size); a field present as
an empty string instead resolves to the empty string. -/
theorem c3_defaults_when_absent (data : List (String × String)) :
    (getOpt data "timeline" = none →
      lookupEnv (extractFields data) "timeline" = some "Not specified") ∧
    (getOpt data "budget" = none →
      lookupEnv (extractFields data) "budget" = some "Not specified") ∧
    (getOpt data "stakeholders" = none →
      lookupEnv (extractFields data) "stakeholders" = some "To be determined") ∧
    (getOpt data "constraints" = none →
      lookupEnv (extractFields data) "constraints" = some "None specified") ∧
    (getOpt data "industry" = none →
      lookupEnv (extractFields data) "industry" = some "General") ∧
    (getOpt data "teamSize" = none →
      lookupEnv (extractFields data) "team_size" = some "To be determined") := by
  refine ⟨fun h => ?_, fun h => ?_, fun h => ?_, fun h => ?_, fun h => ?_, fun h => ?_⟩
  all_goals
    show some (pyGet data _ _) = some _
  all_goals
    rw [pyGet_of_absent _ _ _ h]

/-- C3 witness: with only the two required fields present, every
optional field resolves to its documented default. -/
theorem c3_defaults_witness :
    lookupEnv (extractFields [("projectName", "Website"), ("projectGoal", "Launch")])
      "timeline" = some "Not specified" ∧
    lookupEnv (extractFields [("projectName", "Website"), ("projectGoal", "Launch")])
      "budget" = some "Not specified" ∧
    lookupEnv (extractFields [("projectName", "Website"), ("projectGoal", "Launch")])
      "stakeholders" = some "To be determined" ∧
    lookupEnv (extractFields [("projectName", "Website"), ("projectGoal", "Launch")])
      "constraints" = some "None specified" ∧
    lookupEnv (extractFields [("projectName", "Website"), ("projectGoal", "Launch")])
      "industry" = some "General" ∧
    lookupEnv (extractFields [("projectName", "Website"), ("projectGoal", "Launch")])
      "team_size" = some "To be determined" := by
  obtain ⟨a, b, c, d, e, f⟩ :=
    c3_defaults_when_absent [("projectName", "Website"), ("projectGoal", "Launch")]
  exact ⟨a rfl, b rfl, c rfl, d rfl, e rfl, f rfl⟩

/-- C4: a POST whose content type is not JSON is answered with 400 and
the fixed content-type body, whatever the body holds, and with no side
effect. -/
theorem c4_content_type (req : JsonReq) (h : req.isJson = false) :
    generate_charter req = (V1Outcome.response 400
      [("error", JVal.bool true),
       ("message", JVal.str "Content-Type must be application/json"),
       ("statusCode", JVal.num 400)], []) := by
  simp [generate_charter, h, badRequestBody]

/-- C4 witness: a concrete non-JSON request is rejected with the fixed
400 body. -/
theorem c4_content_type_witness :
    generate_charter ⟨false, [("projectName", "Demo")]⟩ =
      (V1Outcome.response 400
        [("error", JVal.bool true),
         ("message", JVal.str "Content-Type must be application/json"),
         ("statusCode", JVal.num 400)], []) :=
  c4_content_type ⟨false, [("projectName", "Demo")]⟩ rfl

/-- C5: the claim states that an exception from the upstream call is
answered with a body holding error true and the message Error
generating charter followed by the exception text.  Counterexample: on
the exception text Connection error the code returns 500 with success
false, the message is the exception text alone without the documented
prefix, and the body has no error key at all (lines 512-516). -/
theorem c5_exception_counterexample :
    (generate_charter_v2 sample_request sample_now
        (ApiBehavior.raises "Connection error")).1 = 500 ∧
    jlookup (generate_charter_v2 sample_request sample_now
        (ApiBehavior.raises "Connection error")).2 "message" =
      some (JVal.str "Connection error") ∧
    ("Connection error" : String) ≠ "Error generating charter: Connection error" ∧
    jlookup (generate_charter_v2 sample_request sample_now
        (ApiBehavior.raises "Connection error")).2 "error" = none ∧
    jlookup (generate_charter_v2 sample_request sample_now
        (ApiBehavior.raises "Connection error")).2 "success" =
      some (JVal.bool false) := by
  exact ⟨rfl, rfl, by decide, rfl, rfl⟩

/-- C5 amended: every exception raised while invoking the upstream API
is answered with HTTP 500 and the body holding success false and the
exception text verbatim as the whole message; no retry and no partial
result, the response being the only outcome. -/
theorem c5_exception_500 (data : List (String × String)) (now e : String) :
    generate_charter_v2 data now (ApiBehavior.raises e) =
      (500, [("success", JVal.bool false), ("message", JVal.str e)]) := rfl

/-- C6: the claim states that the success metadata holds generatedAt,
inputTokens, outputTokens, estimatedCost and model.  Counterexample: on
a concrete successful call the response is 200, but the metadata object
has no inputTokens, outputTokens or model keys (lines 502-510 put only
generatedAt and estimatedCost there). -/
theorem c6_envelope_counterexample :
    (generate_charter_v2 sample_request sample_now sample_success).1 = 200 ∧
    jGetObj (jlookup (generate_charter_v2 sample_request sample_now
        sample_success).2 "metadata") "inputTokens" = none ∧
    jGetObj (jlookup (generate_charter_v2 sample_request sample_now
        sample_success).2 "metadata") "outputTokens" = none ∧
    jGetObj (jlookup (generate_charter_v2 sample_request sample_now
        sample_success).2 "metadata") "model" = none ∧
    jGetObj (jlookup (generate_charter_v2 sample_request sample_now
        sample_success).2 "metadata") "generatedAt" =
      some (JVal.str sample_now) := by
  exact ⟨rfl, rfl, rfl, rfl, rfl⟩

/-- C6 amended: every successful upstream call is answered with HTTP 200
and the envelope holding success true, projectName echoing the request
value, charter equal to the text of the first generated content block,
and a metadata object holding exactly generatedAt and the constant
estimatedCost. -/
theorem c6_success_envelope (data : List (String × String)) (now : String)
    (b : ContentBlock) (rest : List ContentBlock) (u : Usage) :
    generate_charter_v2 data now (ApiBehavior.returns ⟨b :: rest, u⟩) =
      (200, [("success", JVal.bool true),
             ("projectName", JVal.str (pyGet data "projectName" "")),
             ("charter", JVal.str b.text),
             ("metadata", JVal.obj
               [("generatedAt", JVal.str now),
                ("estimatedCost", JVal.str "0.025")])]) := rfl

/-- C7: in the primary handler, for every request that passes
validation, evaluating the prompt f-string raises NameError, because
the interpolated names projectName, projectGoal and teamSize are not
bound in the local environment (the extraction binds project_name,
project_goal and team_size instead); the first unbound interpolation
reached is projectName, so the handler ends in NameError and its
success path is unreachable. -/
theorem c7_name_error (req : JsonReq) (h1 : req.isJson = true)
    (h2 : missing_fields req.json = []) :
    (generate_charter req).1 = V1Outcome.nameError "projectName" ∧
    lookupEnv (extractFields req.json) "projectName" = none ∧
    lookupEnv (extractFields req.json) "projectGoal" = none ∧
    lookupEnv (extractFields req.json) "teamSize" = none := by
  refine ⟨?_, rfl, rfl, rfl⟩
  have hM : (missing_fields req.json).isEmpty = true := by rw [h2]; rfl
  simp [generate_charter, h1, hM, evalPieces_user_prompt]

/-- C7 witness: a concrete valid request ends in NameError on
projectName, and the three camel-case names are unbound in its
environment. -/
theorem c7_name_error_witness :
    (generate_charter ⟨true, sample_request⟩).1 =
      V1Outcome.nameError "projectName" ∧
    lookupEnv (extractFields sample_request) "projectName" = none ∧
    lookupEnv (extractFields sample_request) "projectGoal" = none ∧
    lookupEnv (extractFields sample_request) "teamSize" = none :=
  c7_name_error ⟨true, sample_request⟩ rfl (by decide)

/-- C8: GET / matches the health route and the health response is HTTP
200 with status online, the documented service name, version 1.0 and
the endpoint path. -/
theorem c8_health :
    route "GET" "/" = RouteMatch.handler "/" ∧
    home_response.1 = 200 ∧
    jlookup home_response.2 "status" = some (JVal.str "online") ∧
    jlookup home_response.2 "service" =
      some (JVal.str "Praxis Advisor - Project Charter Generator") ∧
    jlookup home_response.2 "version" = some (JVal.str "1.0") ∧
    jlookup home_response.2 "endpoint" =
      some (JVal.str "/webhook/praxis-charter") := by
  exact ⟨rfl, rfl, rfl, rfl, rfl, rfl⟩

/-- C9: every request whose path matches no registered route is
answered with 404 and the documented not-found body, and every request
to /webhook/praxis-charter with a method other than POST is answered
with 405 and the documented body. -/
theorem c9_routing (method path : String) :
    (url_map.find? (fun r => r.1 == path) = none →
      error_response method path = some (404,
        [("error", JVal.bool true),
         ("message", JVal.str "Endpoint not found. Use POST /webhook/praxis-charter"),
         ("statusCode", JVal.num 404)])) ∧
    (method ≠ "POST" →
      error_response method "/webhook/praxis-charter" = some (405,
        [("error", JVal.bool true),
         ("message", JVal.str "Method not allowed. Use POST request."),
         ("statusCode", JVal.num 405)])) := by
  constructor
  · intro h
    simp [error_response, route, h, not_found_response]
  · intro h
    simp [error_response, route, url_map, List.contains, h,
      method_not_allowed_response]

/-- C9 witness: GET on an unknown path gets the 404 body, and GET on
the charter path gets the 405 body. -/
theorem c9_routing_witness :
    error_response "GET" "/unknown-path" = some (404,
      [("error", JVal.bool true),
       ("message", JVal.str "Endpoint not found. Use POST /webhook/praxis-charter"),
       ("statusCode", JVal.num 404)]) ∧
    error_response "GET" "/webhook/praxis-charter" = some (405,
      [("error", JVal.bool true),
       ("message", JVal.str "Method not allowed. Use POST request."),
       ("statusCode", JVal.num 405)]) :=
  ⟨(c9_routing "GET" "/unknown-path").1 rfl,
   (c9_routing "GET" "/webhook/praxis-charter").2 (by decide)⟩

/-- C10: a request that fails validation, by non-JSON content type or
by a missing or empty required field, is answered with a 400 response
and the side-effect trace of the handler is empty: no prompt is
constructed and no upstream call is made. -/
theorem c10_validation_pure (req : JsonReq)
    (h : req.isJson = false ∨ missing_fields req.json ≠ []) :
    statusOf (generate_charter req).1 = some 400 ∧
    (generate_charter req).2 = [] := by
  rcases h with h | h
  · simp [generate_charter, h, statusOf]
  · cases hj : req.isJson
    · simp [generate_charter, hj, statusOf]
    · have hM : (missing_fields req.json).isEmpty = false := by
        cases hm : missing_fields req.json
        · exact absurd hm h
        · rfl
      simp [generate_charter, hj, hM, statusOf]

/-- C10 witness: a non-JSON request is answered 400 with an empty
side-effect trace. -/
theorem c10_validation_pure_witness :
    statusOf (generate_charter ⟨false, []⟩).1 = some 400 ∧
    (generate_charter ⟨false, []⟩).2 = [] :=
  c10_validation_pure ⟨false, []⟩ (Or.inl rfl)

end PraxisAdvisor
